import Mathlib

/-!
Verification of `popmart_stock_watcher.py` (gazimust/popmart-watcher-cloud).

The development shallowly embeds the decision logic of the watcher:
  * the pattern lists `CANDIDATE_ADD_TEXTS`, `SOLD_OUT_TEXTS`, `NOTIFY_ME_TEXTS`;
  * the text matcher `page_has_any_text` (case-insensitive substring search
    over the page content, `html.lower()` / `t.lower() in lower`);
  * the button probe `find_enabled_buy_button` (per-phrase locator query,
    exceptions swallowed per phrase);
  * the classifier `is_in_stock` (button check first, then sold-out texts,
    then notify-me texts, else `False`);
  * `iphone_push` (no-op when credentials are missing; a single POST attempt
    otherwise, errors logged and never raised);
  * the body of the polling loop in `main`: per-product navigation with
    skip-on-failure, verdict computation, the false-to-true notifier gate,
    the `last_seen_instock` dictionary, and the browser-recycling counter.

A `Page` is modelled by the observable results of the queries the code makes:
the result of `page.content()` (which may raise) and, per candidate phrase,
the result of the button locator query (which may raise, find nothing, or
find a first button with given visibility/enabled flags).  Exception-raising
operations are embedded as explicit error values; Python's `str.lower` is
modelled on the ASCII range, which covers every phrase in the pattern lists.
-/

namespace PopmartWatcher

/-- `needle.isPrefixOf hay` over raw character lists (used to embed Python's
substring test `needle in hay`). -/
def beginsWith : List Char → List Char → Bool
  | [], _ => true
  | _ :: _, [] => false
  | n :: ns, h :: hs => n == h && beginsWith ns hs

/-- `hasSubList needle hay` : does `needle` occur contiguously in `hay`?
Embeds Python's `needle in hay` on strings. -/
def hasSubList : List Char → List Char → Bool
  | needle, [] => needle.isEmpty
  | needle, h :: hs => beginsWith needle (h :: hs) || hasSubList needle hs

/-- Character list of a string with ASCII lower-casing, embedding
`str.lower()` on the ASCII phrases used by the watcher. -/
def lowerChars (s : String) : List Char := s.data.map Char.toLower

/-- `t.lower() in html.lower()` from `page_has_any_text`. -/
def lowerContains (hay needle : String) : Bool :=
  hasSubList (lowerChars needle) (lowerChars hay)

/-- Source list `CANDIDATE_ADD_TEXTS` (buy-affordance phrases). -/
def CANDIDATE_ADD_TEXTS : List String :=
  ["Add to Cart", "Add To Cart", "Add to Bag", "Add To Bag",
   "Add to Basket", "Add To Basket", "Buy Now", "Purchase"]

/-- Source list `SOLD_OUT_TEXTS`. -/
def SOLD_OUT_TEXTS : List String :=
  ["Sold Out", "Out of Stock", "Out Of Stock", "Unavailable"]

/-- Source list `NOTIFY_ME_TEXTS`. -/
def NOTIFY_ME_TEXTS : List String :=
  ["Notify Me", "Email Me When Available", "Back in Stock"]

/-- Result of the button locator query `page.get_by_role("button", name=...)`
for one candidate phrase: the query chain may raise, may count zero matches,
or yields a first button with its visibility and enabled flags. -/
inductive QueryResult where
  | err : QueryResult
  | absent : QueryResult
  | found (visible enabled : Bool) : QueryResult
deriving DecidableEq, Repr

/-- Observable behaviour of a (rendered) page: the result of
`page.content()` (`Except.error` when the call raises) and the result of the
button locator query for each candidate phrase. -/
structure Page where
  content : Except Unit String
  buttonQuery : String → QueryResult

/-- Embeds `page_has_any_text(page, texts)`: read `page.content()`, lower it,
and test each phrase for substring occurrence; any exception yields `false`. -/
def page_has_any_text (page : Page) (texts : List String) : Bool :=
  match page.content with
  | .ok html => texts.any (fun t => lowerContains html t)
  | .error _ => false

/-- Embeds `find_enabled_buy_button(page)`: for each candidate phrase, query
the button role; on an exception continue with the next phrase; return `true`
exactly when some phrase finds a button that is visible and enabled. -/
def find_enabled_buy_button (page : Page) : Bool :=
  CANDIDATE_ADD_TEXTS.any (fun t =>
    match page.buttonQuery t with
    | .err => false
    | .absent => false
    | .found visible enabled => visible && enabled)

/-- Embeds `is_in_stock(page)`: enabled buy button first, then sold-out
phrases, then notify-me phrases, defaulting to `false`. -/
def is_in_stock (page : Page) : Bool :=
  if find_enabled_buy_button page then true
  else if page_has_any_text page SOLD_OUT_TEXTS then false
  else if page_has_any_text page NOTIFY_ME_TEXTS then false
  else false

/-- Source list `PRODUCT_URLS` (the fixed tracked-product list). -/
def PRODUCT_URLS : List String :=
  ["https://www.popmart.com/gb/products/1265/THE-MONSTERS-Big-into-Energy-Series-ROCK-THE-UNIVERSE-Vinyl-Plush-Doll",
   "https://www.popmart.com/gb/products/1270/THE-MONSTERS-Pin-for-Love-Series-Vinyl-Plush-Pendant-Blind-Box-(N-Z)",
   "https://www.popmart.com/gb/products/1269/THE-MONSTER-PIN-FOR-LOVE-SERIES---Vinyl-Plush-Pendant-Blind-Box-(A-M)",
   "https://www.popmart.com/gb/products/925/THE-MONSTERS-Let\x27s-Checkmate-Series-Vinyl-Plush-Hanging-Card",
   "https://www.popmart.com/gb/products/909/LABUBU-%C3%97-PRONOUNCE---WINGS-OF-FORTUNE-Vinyl-Plush-Hanging-Card",
   "https://www.popmart.com/gb/products/820/THE-MONSTERS---ANGEL-IN-CLOUDS-Vinyl-Face-Doll",
   "https://www.popmart.com/gb/products/757/THE-MONSTERS---I-FOUND-YOU-Vinyl-Face-Doll",
   "https://www.popmart.com/gb/products/753/Happy-Halloween-Party-Series-Sitting-Pumpkin-Vinyl-Plush-Pendant",
   "https://www.popmart.com/gb/products/733/LABUBU-Time-to-Chill-Vinyl-Plush-Doll"]

/-- The Pushover credentials read from the environment (`PUSHOVER_TOKEN`,
`PUSHOVER_USER`); the empty string is the default when a variable is unset. -/
structure Config where
  PUSHOVER_TOKEN : String
  PUSHOVER_USER : String
deriving DecidableEq, Repr

/-- Outcome of the one HTTP POST to the Pushover API, when it is attempted:
status 200, a non-200 status, or a raised exception. -/
inductive PushResult where
  | ok200 : PushResult
  | httpErr (code : Nat) : PushResult
  | exn : PushResult
deriving DecidableEq, Repr

/-- The warning logged by `iphone_push` when credentials are missing. -/
def pushSkipLog : String := "Pushover not configured; skipping push."

/-- Embeds `iphone_push`: with a missing token or user it logs a warning and
returns without attempting a POST; otherwise it makes exactly one POST
attempt, logging (but never raising) a non-200 status or an exception.
Returns (whether a POST was attempted, the log lines the call produced). -/
def iphone_push (cfg : Config) (r : PushResult) : Bool × List String :=
  if cfg.PUSHOVER_TOKEN = "" || cfg.PUSHOVER_USER = "" then
    (false, [pushSkipLog])
  else
    match r with
    | .ok200 => (true, [])
    | .httpErr code => (true, ["Pushover error: " ++ toString code])
    | .exn => (true, ["Pushover exception"])

/-- What the loop body observes for one product: either `page.goto(url)`
raised (`navFail`), or navigation succeeded and the page is available. -/
inductive Observation where
  | navFail : Observation
  | ok (page : Page) : Observation

/-- The `last_seen_instock` dictionary: an insertion-ordered association
list, as a Python `dict` is. -/
abbrev Dict := List (String × Bool)

/-- Embeds `last_seen_instock = \x7burl: False for url in PRODUCT_URLS\x7d`. -/
def init_states (urls : List String) : Dict :=
  urls.map (fun u => (u, false))

/-- Embeds `d.get(k, False)`. -/
def dict_get (d : Dict) (k : String) : Bool :=
  match d with
  | [] => false
  | (k', v) :: rest => if k' = k then v else dict_get rest k

/-- Embeds `d[k] = v` (overwrite in place if the key exists, append
otherwise, preserving insertion order). -/
def dict_set (d : Dict) (k : String) (v : Bool) : Dict :=
  match d with
  | [] => [(k, v)]
  | (k', v') :: rest =>
      if k' = k then (k, v) :: rest else (k', v') :: dict_set rest k v

/-- The log line of `log(f"[\x7burl\x7d] Navigation failed (skipping): \x7be\x7d")`
(exception text abstracted away). -/
def navFailLog (u : String) : String :=
  "[" ++ u ++ "] Navigation failed (skipping)"

/-- The log line of `log(f"[\x7burl\x7d] In stock? \x7bin_stock\x7d")`. -/
def verdictLog (u : String) (b : Bool) : String :=
  "[" ++ u ++ "] In stock? " ++ (if b then "True" else "False")

/-- Observable effects of processing one product (or one cycle): which URLs
the loop called `iphone_push` for, how many HTTP POSTs were actually made,
the loop's own log lines, and the log lines produced inside `iphone_push`. -/
structure Effects where
  pushCalls : List String
  postAttempts : Nat
  logs : List String
  pushLogs : List String
deriving DecidableEq, Repr

/-- Concatenation of effect records (sequential composition). -/
def effApp (e₁ e₂ : Effects) : Effects :=
  ⟨e₁.pushCalls ++ e₂.pushCalls, e₁.postAttempts + e₂.postAttempts,
   e₁.logs ++ e₂.logs, e₁.pushLogs ++ e₂.pushLogs⟩

/-- The false-to-true notifier gate of the loop body (lines 185-191 of the
source): given the stored previous value and this cycle's verdict, return
the value stored back and whether `iphone_push` is invoked. -/
def tracker_update (was verdict : Bool) : Bool × Bool :=
  (verdict, verdict && !was)

/-- Embeds the per-product body of the polling loop (lines 173-194): a failed
navigation is logged and the product skipped; otherwise the verdict is
computed, `iphone_push` is called exactly when the verdict is `true` and the
stored value was `false`, and the verdict is stored unconditionally. -/
def product_step (cfg : Config) (r : PushResult) (d : Dict) (u : String)
    (obs : Observation) : Dict × Effects :=
  match obs with
  | .navFail => (d, ⟨[], 0, [navFailLog u], []⟩)
  | .ok page =>
      let in_stock := is_in_stock page
      let was := dict_get d u
      if in_stock && !was then
        let p := iphone_push cfg r
        (dict_set d u in_stock,
         ⟨[u], if p.1 then 1 else 0, [verdictLog u in_stock], p.2⟩)
      else
        (dict_set d u in_stock, ⟨[], 0, [verdictLog u in_stock], []⟩)

/-- Embeds one pass of `for url in PRODUCT_URLS` over a given URL list:
`world u` is the Pushover outcome were a POST attempted for `u`, and
`obs u` is what navigation to `u` observes this cycle. -/
def run_cycle (cfg : Config) (world : String → PushResult)
    (obs : String → Observation) : List String → Dict → Dict × Effects
  | [], d => (d, ⟨[], 0, [], []⟩)
  | u :: rest, d =>
      let s := product_step cfg (world u) d u (obs u)
      let t := run_cycle cfg world obs rest s.1
      (t.1, effApp s.2 t.2)

/-- Embeds the outer `while True` loop as a run over finitely many cycles;
each cycle carries its own Pushover world and per-URL observations. -/
def run_cycles (cfg : Config) :
    List ((String → PushResult) × (String → Observation)) → Dict → Dict
  | [], d => d
  | c :: cs, d => run_cycles cfg cs (run_cycle cfg c.1 c.2 PRODUCT_URLS d).1

/-- Source constant `LOOP_RESTART` (recycle the browser every N loops). -/
def LOOP_RESTART : Nat := 200

/-- Browser/context/page lifecycle state of `main`: the number of completed
loops (`loop_count`) and an identifier for the currently live rendering
session (incremented exactly when the browser/context/page are recycled). -/
structure SessionState where
  loopCount : Nat
  sessionId : Nat
deriving DecidableEq, Repr

/-- The session before the first cycle: the page created at line 156. -/
def initSession : SessionState := ⟨0, 0⟩

/-- Embeds the session usage of one cycle: `loop_count += 1`, every product
of the cycle uses the currently live session, and after the products the
browser/context/page are recycled exactly when
`loop_count % LOOP_RESTART == 0` (lines 171-172 and 196-228). Returns the
session id used by each product of the cycle, and the state after. -/
def cycle_session_use (st : SessionState) (numProducts : Nat) :
    List Nat × SessionState :=
  let lc := st.loopCount + 1
  (List.replicate numProducts st.sessionId,
   ⟨lc, if lc % LOOP_RESTART == 0 then st.sessionId + 1 else st.sessionId⟩)

/-- Session lifecycle over `k` cycles of the watcher. -/
def run_sessions : Nat → SessionState → SessionState
  | 0, st => st
  | k + 1, st => run_sessions k (cycle_session_use st PRODUCT_URLS.length).2

/-- Key list of the `last_seen_instock` dictionary, in insertion order. -/
def dict_keys (d : Dict) : List String := d.map Prod.fst

/-- The notifier gate (lines 185-191) iterated over a sequence of per-cycle
verdicts for one product: entry `i` is the pair (state stored after cycle
`i`, whether cycle `i` emitted a notification), starting from stored state
`init`. -/
def gate_run : Bool → List Bool → List (Bool × Bool)
  | _, [] => []
  | was, v :: vs => (v, v && !was) :: gate_run v vs

/-- The stored state entering cycle `i` of `gate_run init vs`. -/
def gate_prev (init : Bool) (vs : List Bool) : Nat → Bool
  | 0 => init
  | i + 1 => vs.getD i false

/-- A page whose content reads "Sold Out" while an enabled, visible buy
button is also present (every button query finds one). -/
def pageSoldButton : Page :=
  ⟨Except.ok "Sold Out", fun _ => QueryResult.found true true⟩

/-- A page whose content reads "Sold Out" and which has no buy button. -/
def pageSoldNoButton : Page :=
  ⟨Except.ok "Sold Out", fun _ => QueryResult.absent⟩

/-- A page with an enabled, visible buy button and empty content. -/
def pageButtonOnly : Page :=
  ⟨Except.ok "", fun _ => QueryResult.found true true⟩

/-- A page with no button and empty content (no signal at all). -/
def pageBlank : Page :=
  ⟨Except.ok "", fun _ => QueryResult.absent⟩

/-- A page on which every query raises: `page.content()` raises and every
button locator query raises. -/
def pageAllErr : Page :=
  ⟨Except.error (), fun _ => QueryResult.err⟩

/-! ### Dictionary lemmas -/

theorem dict_get_set_self : ∀ (d : Dict) (k : String) (v : Bool),
    dict_get (dict_set d k v) k = v
  | [], k, v => by simp [dict_set, dict_get]
  | (k', v') :: rest, k, v => by
      by_cases h : k' = k
      · simp [dict_set, dict_get, h]
      · simp [dict_set, dict_get, h, dict_get_set_self rest k v]

theorem dict_get_set_ne : ∀ (d : Dict) (k k' : String) (v : Bool), k ≠ k' →
    dict_get (dict_set d k v) k' = dict_get d k'
  | [], k, k', v, hne => by simp [dict_set, dict_get, hne]
  | (a, b) :: rest, k, k', v, hne => by
      by_cases h : a = k
      · subst h
        simp [dict_set, dict_get, hne]
      · simp [dict_set, dict_get, h, dict_get_set_ne rest k k' v hne]

theorem dict_keys_set_of_mem : ∀ (d : Dict) (k : String) (v : Bool),
    k ∈ dict_keys d → dict_keys (dict_set d k v) = dict_keys d
  | [], k, v, hmem => by simp [dict_keys] at hmem
  | (a, b) :: rest, k, v, hmem => by
      by_cases h : a = k
      · simp [dict_set, dict_keys, h]
      · have hrest : k ∈ dict_keys rest := by
          simp [dict_keys] at hmem ⊢
          exact hmem.resolve_left (fun hk => h hk.symm)
        simp [dict_set, dict_keys, h] at hrest ⊢
        exact dict_keys_set_of_mem rest k v (by simpa [dict_keys] using hrest)

theorem dict_keys_init (urls : List String) :
    dict_keys (init_states urls) = urls := by
  induction urls with
  | nil => rfl
  | cons a rest ih => simpa [dict_keys, init_states] using ih

theorem dict_get_init : ∀ (urls : List String) (u : String),
    dict_get (init_states urls) u = false
  | [], u => by simp [init_states, dict_get]
  | a :: rest, u => by
      have ih := dict_get_init rest u
      simp [init_states, dict_get] at ih ⊢
      by_cases h : a = u <;> simp [h, ih]

/-- The dictionary written by the loop body: the skip branch leaves it
untouched, the normal branch stores this cycle's verdict. -/
theorem product_step_dict (cfg : Config) (r : PushResult) (d : Dict)
    (u : String) : ∀ (obs : Observation),
    (product_step cfg r d u obs).1 =
      match obs with
      | .navFail => d
      | .ok page => dict_set d u (is_in_stock page)
  | .navFail => rfl
  | .ok page => by
      by_cases h : is_in_stock page && !(dict_get d u) <;>
        simp [product_step, h]

theorem run_cycle_nil (cfg : Config) (world : String → PushResult)
    (obs : String → Observation) (d : Dict) :
    run_cycle cfg world obs [] d = (d, ⟨[], 0, [], []⟩) := rfl

theorem run_cycle_fst (cfg : Config) (world : String → PushResult)
    (obs : String → Observation) (u : String) (rest : List String) (d : Dict) :
    (run_cycle cfg world obs (u :: rest) d).1 =
      (run_cycle cfg world obs rest
        (product_step cfg (world u) d u (obs u)).1).1 := rfl

theorem run_cycle_snd (cfg : Config) (world : String → PushResult)
    (obs : String → Observation) (u : String) (rest : List String) (d : Dict) :
    (run_cycle cfg world obs (u :: rest) d).2 =
      effApp (product_step cfg (world u) d u (obs u)).2
        (run_cycle cfg world obs rest
          (product_step cfg (world u) d u (obs u)).1).2 := rfl

theorem run_cycle_keys (cfg : Config) (world : String → PushResult)
    (obs : String → Observation) : ∀ (urls : List String) (d : Dict),
    (∀ u, u ∈ urls → u ∈ dict_keys d) →
    dict_keys (run_cycle cfg world obs urls d).1 = dict_keys d
  | [], d, _ => rfl
  | u :: rest, d, h => by
      have hu : u ∈ dict_keys d := h u (List.mem_cons_self u rest)
      have hstep :
          dict_keys (product_step cfg (world u) d u (obs u)).1 = dict_keys d := by
        rw [product_step_dict]
        cases obs u with
        | navFail => rfl
        | ok page => exact dict_keys_set_of_mem d u _ hu
      have hrest : ∀ v, v ∈ rest →
          v ∈ dict_keys (product_step cfg (world u) d u (obs u)).1 := by
        intro v hv
        rw [hstep]
        exact h v (List.mem_cons_of_mem u hv)
      rw [run_cycle_fst, run_cycle_keys cfg world obs rest _ hrest, hstep]

theorem run_cycle_get_of_navFail (cfg : Config) (world : String → PushResult)
    (obs : String → Observation) (u : String)
    (hobs : obs u = Observation.navFail) : ∀ (urls : List String) (d : Dict),
    dict_get (run_cycle cfg world obs urls d).1 u = dict_get d u
  | [], d => rfl
  | v :: rest, d => by
      have hstep :
          dict_get (product_step cfg (world v) d v (obs v)).1 u = dict_get d u := by
        by_cases hvu : v = u
        · subst hvu
          rw [hobs]
          rfl
        · rw [product_step_dict]
          cases obs v with
          | navFail => rfl
          | ok page => exact dict_get_set_ne d v u _ hvu
      rw [run_cycle_fst,
        run_cycle_get_of_navFail cfg world obs u hobs rest _, hstep]

theorem product_step_pushCalls_sub (cfg : Config) (r : PushResult) (d : Dict)
    (v : String) (obs : Observation) :
    ∀ x ∈ (product_step cfg r d v obs).2.pushCalls, x = v := by
  cases obs with
  | navFail => intro x hx; simp [product_step] at hx
  | ok page =>
      intro x hx
      by_cases h : is_in_stock page && !(dict_get d v) <;>
        simp [product_step, h] at hx
      exact hx

theorem run_cycle_pushCalls_of_navFail (cfg : Config)
    (world : String → PushResult) (obs : String → Observation) (u : String)
    (hobs : obs u = Observation.navFail) : ∀ (urls : List String) (d : Dict),
    u ∉ (run_cycle cfg world obs urls d).2.pushCalls
  | [], d => by simp [run_cycle_nil]
  | v :: rest, d => by
      rw [run_cycle_snd]
      intro hmem
      rcases List.mem_append.mp hmem with hl | hr
      · have hv := product_step_pushCalls_sub cfg (world v) d v (obs v) u hl
        subst hv
        rw [hobs] at hl
        simp [product_step] at hl
      · exact run_cycle_pushCalls_of_navFail cfg world obs u hobs rest _ hr

theorem run_cycles_get_of_navFail (cfg : Config) (u : String) :
    ∀ (script : List ((String → PushResult) × (String → Observation)))
      (d : Dict), (∀ c ∈ script, c.2 u = Observation.navFail) →
    dict_get (run_cycles cfg script d) u = dict_get d u
  | [], d, _ => rfl
  | c :: cs, d, h => by
      rw [show run_cycles cfg (c :: cs) d =
            run_cycles cfg cs (run_cycle cfg c.1 c.2 PRODUCT_URLS d).1 from rfl,
        run_cycles_get_of_navFail cfg u cs _
          (fun c' hc' => h c' (List.mem_cons_of_mem c hc')),
        run_cycle_get_of_navFail cfg c.1 c.2 u (h c (List.mem_cons_self c cs))]

theorem run_cycles_keys (cfg : Config) :
    ∀ (script : List ((String → PushResult) × (String → Observation)))
      (d : Dict), dict_keys d = PRODUCT_URLS →
    dict_keys (run_cycles cfg script d) = PRODUCT_URLS
  | [], d, h => h
  | c :: cs, d, h => by
      rw [show run_cycles cfg (c :: cs) d =
            run_cycles cfg cs (run_cycle cfg c.1 c.2 PRODUCT_URLS d).1 from rfl]
      refine run_cycles_keys cfg cs _ ?_
      rw [run_cycle_keys cfg c.1 c.2 PRODUCT_URLS d (fun v hv => h ▸ hv), h]

/-! ### Notifier-gate lemmas -/

theorem gate_prev_cons (v : Bool) (vs : List Bool) :
    ∀ i, gate_prev v vs i = (v :: vs).getD i false
  | 0 => rfl
  | _ + 1 => rfl

theorem gate_run_getD : ∀ (init : Bool) (vs : List Bool) (i : Nat),
    i < vs.length →
    (gate_run init vs).getD i (false, false) =
      (vs.getD i false, vs.getD i false && !(gate_prev init vs i))
  | _, [], i, h => by simp at h
  | init, v :: vs, 0, _ => by simp [gate_run, gate_prev]
  | init, v :: vs, i + 1, h => by
      have ih := gate_run_getD v vs i (by simpa using h)
      rw [gate_prev_cons v vs i] at ih
      simpa [gate_run, gate_prev] using ih

/-! ### Session-lifecycle lemmas -/

theorem run_sessions_inv : ∀ (k c : Nat),
    run_sessions k ⟨c, c / LOOP_RESTART⟩ = ⟨c + k, (c + k) / LOOP_RESTART⟩
  | 0, c => rfl
  | k + 1, c => by
      have hpos : 0 < LOOP_RESTART := by decide
      have hstep :
          (cycle_session_use ⟨c, c / LOOP_RESTART⟩ PRODUCT_URLS.length).2 =
            ⟨c + 1, (c + 1) / LOOP_RESTART⟩ := by
        simp only [cycle_session_use]
        rw [Nat.succ_div]
        by_cases h : LOOP_RESTART ∣ (c + 1)
        · have hm : (c + 1) % LOOP_RESTART = 0 := Nat.mod_eq_zero_of_dvd h
          simp [hm, h]
        · have hm : ¬(c + 1) % LOOP_RESTART = 0 :=
            fun hme => h (Nat.dvd_of_mod_eq_zero hme)
          simp [hm, h]
      have hck : c + 1 + k = c + (k + 1) := by omega
      calc run_sessions (k + 1) ⟨c, c / LOOP_RESTART⟩
          = run_sessions k
              (cycle_session_use ⟨c, c / LOOP_RESTART⟩ PRODUCT_URLS.length).2 :=
            rfl
        _ = run_sessions k ⟨c + 1, (c + 1) / LOOP_RESTART⟩ := by rw [hstep]
        _ = ⟨c + 1 + k, (c + 1 + k) / LOOP_RESTART⟩ := run_sessions_inv k (c + 1)
        _ = ⟨c + (k + 1), (c + (k + 1)) / LOOP_RESTART⟩ := by rw [hck]

/-! ### Credential-noninterference lemmas -/

theorem product_step_cfg_indep (cfg₁ cfg₂ : Config) (r₁ r₂ : PushResult)
    (d : Dict) (u : String) (obs : Observation) :
    (product_step cfg₁ r₁ d u obs).1 = (product_step cfg₂ r₂ d u obs).1 ∧
    (product_step cfg₁ r₁ d u obs).2.pushCalls =
      (product_step cfg₂ r₂ d u obs).2.pushCalls ∧
    (product_step cfg₁ r₁ d u obs).2.logs =
      (product_step cfg₂ r₂ d u obs).2.logs := by
  cases obs with
  | navFail => exact ⟨rfl, rfl, rfl⟩
  | ok page =>
      by_cases h : is_in_stock page && !(dict_get d u) <;>
        simp [product_step, h]

theorem run_cycle_cfg_indep (cfg₁ cfg₂ : Config) (world : String → PushResult)
    (obs : String → Observation) : ∀ (urls : List String) (d : Dict),
    (run_cycle cfg₁ world obs urls d).1 = (run_cycle cfg₂ world obs urls d).1 ∧
    (run_cycle cfg₁ world obs urls d).2.pushCalls =
      (run_cycle cfg₂ world obs urls d).2.pushCalls ∧
    (run_cycle cfg₁ world obs urls d).2.logs =
      (run_cycle cfg₂ world obs urls d).2.logs
  | [], d => ⟨rfl, rfl, rfl⟩
  | u :: rest, d => by
      obtain ⟨h1, h2, h3⟩ :=
        product_step_cfg_indep cfg₁ cfg₂ (world u) (world u) d u (obs u)
      rw [run_cycle_fst, run_cycle_fst, run_cycle_snd, run_cycle_snd, ← h1]
      obtain ⟨i1, i2, i3⟩ := run_cycle_cfg_indep cfg₁ cfg₂ world obs rest
        (product_step cfg₁ (world u) d u (obs u)).1
      exact ⟨i1, by simp [effApp, h2, i2], by simp [effApp, h3, i3]⟩

theorem run_cycles_cfg_indep (cfg₁ cfg₂ : Config) :
    ∀ (script : List ((String → PushResult) × (String → Observation)))
      (d : Dict), run_cycles cfg₁ script d = run_cycles cfg₂ script d
  | [], _ => rfl
  | c :: cs, d => by
      rw [show run_cycles cfg₁ (c :: cs) d =
            run_cycles cfg₁ cs (run_cycle cfg₁ c.1 c.2 PRODUCT_URLS d).1 from rfl,
        show run_cycles cfg₂ (c :: cs) d =
            run_cycles cfg₂ cs (run_cycle cfg₂ c.1 c.2 PRODUCT_URLS d).1 from rfl,
        ← (run_cycle_cfg_indep cfg₁ cfg₂ c.1 c.2 PRODUCT_URLS d).1,
        run_cycles_cfg_indep cfg₁ cfg₂ cs _]

/-! ### Claim theorems -/

/-- C1: for every product and every sequence of per-cycle verdicts, the
notifier gate emits a notification at a cycle iff that cycle's verdict is
`true` and the stored previous state is `false`; after each cycle the stored
state equals that cycle's verdict; the same verdict twice in a row never
produces a second notification; and the verdict sequence true, false, true
produces exactly two notifications.  The last conjunct ties the gate to the
embedded loop body: on a successful observation the loop stores and notifies
exactly as `tracker_update` prescribes. -/
theorem notifier_gate_spec (init : Bool) (vs : List Bool) :
    (∀ i, i < vs.length →
      (gate_run init vs).getD i (false, false) =
        (vs.getD i false, vs.getD i false && !(gate_prev init vs i))) ∧
    (∀ i, i + 1 < vs.length → vs.getD i false = vs.getD (i + 1) false →
      ((gate_run init vs).getD (i + 1) (false, false)).2 = false) ∧
    ((gate_run false [true, false, true]).map Prod.snd).count true = 2 ∧
    (∀ (cfg : Config) (r : PushResult) (d : Dict) (u : String) (page : Page),
      (product_step cfg r d u (Observation.ok page)).1 =
        dict_set d u (tracker_update (dict_get d u) (is_in_stock page)).1 ∧
      (product_step cfg r d u (Observation.ok page)).2.pushCalls =
        (if (tracker_update (dict_get d u) (is_in_stock page)).2 = true
          then [u] else [])) := by
  refine ⟨gate_run_getD init vs, ?_, by decide, ?_⟩
  · intro i h heq
    rw [gate_run_getD init vs (i + 1) h]
    show (vs.getD (i + 1) false && !(gate_prev init vs (i + 1))) = false
    simp only [gate_prev]
    rw [heq]
    exact Bool.and_not_self _
  · intro cfg r d u page
    constructor
    · rw [product_step_dict]
      rfl
    · by_cases h : is_in_stock page && !(dict_get d u) <;>
        simp [product_step, tracker_update, h]

theorem notifier_gate_spec_witness :
    ((gate_run false [true, true]).getD 1 (false, false)).2 = false :=
  (notifier_gate_spec false [true, true]).2.1 0 (by decide) (by decide)

/-- C2 as stated is false on the code: `pageSoldButton` carries sold-out
phrasing in its content, yet the enabled, visible buy button is checked
first and the verdict is `true`. -/
theorem sold_out_ignored_when_button_enabled_cex :
    page_has_any_text pageSoldButton SOLD_OUT_TEXTS = true ∧
    is_in_stock pageSoldButton = true := by decide

/-- C2 (amended): for every page observation on which no enabled, visible
buy control is found, if sold-out/unavailable phrasing or waitlist/notify-me
phrasing is present in the content then the verdict is `false`, regardless
of buy-affordance phrasing in the content. -/
theorem sold_out_or_waitlist_yields_false (page : Page)
    (hbtn : find_enabled_buy_button page = false)
    (_htext : page_has_any_text page SOLD_OUT_TEXTS = true ∨
      page_has_any_text page NOTIFY_ME_TEXTS = true) :
    is_in_stock page = false := by
  simp [is_in_stock, hbtn]

theorem sold_out_or_waitlist_yields_false_witness :
    is_in_stock pageSoldNoButton = false :=
  sold_out_or_waitlist_yields_false pageSoldNoButton (by decide)
    (Or.inl (by decide))

/-- C3: for every page observation in which some candidate buy phrase finds
a button that is both visible and enabled, and no sold-out or waitlist
phrasing matches, the verdict is `true`; moreover the button check is
decisive on its own (it is evaluated first, before any text rule). -/
theorem enabled_button_yields_in_stock (page : Page) (t : String)
    (ht : t ∈ CANDIDATE_ADD_TEXTS)
    (hq : page.buttonQuery t = QueryResult.found true true)
    (_hsold : page_has_any_text page SOLD_OUT_TEXTS = false)
    (_hwait : page_has_any_text page NOTIFY_ME_TEXTS = false) :
    find_enabled_buy_button page = true ∧ is_in_stock page = true ∧
    (∀ q : Page, find_enabled_buy_button q = true → is_in_stock q = true) := by
  have hbtn : find_enabled_buy_button page = true := by
    simp only [find_enabled_buy_button, List.any_eq_true]
    exact ⟨t, ht, by simp [hq]⟩
  exact ⟨hbtn, by simp [is_in_stock, hbtn],
    fun q hq' => by simp [is_in_stock, hq']⟩

theorem enabled_button_yields_in_stock_witness :
    is_in_stock pageButtonOnly = true :=
  (enabled_button_yields_in_stock pageButtonOnly "Buy Now" (by decide) rfl
    (by decide) (by decide)).2.1

/-- C4: for every page observation matching none of the three pattern groups
(no enabled buy control, no sold-out phrasing, no waitlist phrasing), the
verdict is `false` (default-closed). -/
theorem no_signal_defaults_false (page : Page)
    (hbtn : find_enabled_buy_button page = false)
    (hsold : page_has_any_text page SOLD_OUT_TEXTS = false)
    (hwait : page_has_any_text page NOTIFY_ME_TEXTS = false) :
    is_in_stock page = false := by
  simp [is_in_stock, hbtn, hsold, hwait]

theorem no_signal_defaults_false_witness :
    is_in_stock pageBlank = false :=
  no_signal_defaults_false pageBlank (by decide) (by decide) (by decide)

/-- C5: the tracked-URL list has no duplicates, the `last_seen_instock`
mapping starts with exactly the tracked URLs as keys, each initialized to
`false`, and after any run of cycles the key list is still exactly the
tracked-URL list (the key set never grows or shrinks). -/
theorem state_mapping_invariant :
    PRODUCT_URLS.Nodup ∧
    dict_keys (init_states PRODUCT_URLS) = PRODUCT_URLS ∧
    (∀ u, dict_get (init_states PRODUCT_URLS) u = false) ∧
    (∀ (cfg : Config)
      (script : List ((String → PushResult) × (String → Observation)))
      (d : Dict), dict_keys d = PRODUCT_URLS →
      dict_keys (run_cycles cfg script d) = PRODUCT_URLS) :=
  ⟨by decide, dict_keys_init PRODUCT_URLS,
    fun u => dict_get_init PRODUCT_URLS u,
    fun cfg script d h => run_cycles_keys cfg script d h⟩

theorem state_mapping_invariant_witness :
    dict_keys (run_cycles ⟨"", ""⟩
      [(fun _ => PushResult.ok200, fun _ => Observation.navFail)]
      (init_states PRODUCT_URLS)) = PRODUCT_URLS :=
  state_mapping_invariant.2.2.2 ⟨"", ""⟩
    [(fun _ => PushResult.ok200, fun _ => Observation.navFail)]
    (init_states PRODUCT_URLS) (dict_keys_init PRODUCT_URLS)

/-- C6: a product whose navigation fails in a cycle is logged and skipped:
the per-product step leaves the dictionary untouched and pushes nothing, the
cycle continues with the remaining products (whose outcome is unchanged),
the failed product's stored state and notifications are unaffected however
often it appears, and if it fails in every cycle its stored state remains at
its last known value indefinitely. -/
theorem nav_failure_skips_product (cfg : Config)
    (world : String → PushResult) (obs : String → Observation) (u : String)
    (hobs : obs u = Observation.navFail) :
    (∀ (r : PushResult) (d : Dict),
      product_step cfg r d u Observation.navFail =
        (d, ⟨[], 0, [navFailLog u], []⟩)) ∧
    (∀ (rest : List String) (d : Dict),
      (run_cycle cfg world obs (u :: rest) d).1 =
        (run_cycle cfg world obs rest d).1 ∧
      (run_cycle cfg world obs (u :: rest) d).2.pushCalls =
        (run_cycle cfg world obs rest d).2.pushCalls ∧
      (run_cycle cfg world obs (u :: rest) d).2.postAttempts =
        (run_cycle cfg world obs rest d).2.postAttempts ∧
      (run_cycle cfg world obs (u :: rest) d).2.logs =
        navFailLog u :: (run_cycle cfg world obs rest d).2.logs) ∧
    (∀ (urls : List String) (d : Dict),
      dict_get (run_cycle cfg world obs urls d).1 u = dict_get d u) ∧
    (∀ (urls : List String) (d : Dict),
      u ∉ (run_cycle cfg world obs urls d).2.pushCalls) ∧
    (∀ (script : List ((String → PushResult) × (String → Observation)))
      (d : Dict), (∀ c ∈ script, c.2 u = Observation.navFail) →
      dict_get (run_cycles cfg script d) u = dict_get d u) := by
  refine ⟨fun r d => rfl, ?_,
    fun urls d => run_cycle_get_of_navFail cfg world obs u hobs urls d,
    fun urls d => run_cycle_pushCalls_of_navFail cfg world obs u hobs urls d,
    fun script d h => run_cycles_get_of_navFail cfg u script d h⟩
  intro rest d
  rw [run_cycle_fst, run_cycle_snd, hobs]
  refine ⟨rfl, ?_, ?_, ?_⟩ <;> simp [product_step, effApp]

theorem nav_failure_skips_product_witness :
    dict_get (run_cycle ⟨"", ""⟩ (fun _ => PushResult.ok200)
      (fun _ => Observation.navFail) PRODUCT_URLS [("k", true)]).1 "k" =
      dict_get [("k", true)] "k" :=
  (nav_failure_skips_product ⟨"", ""⟩ (fun _ => PushResult.ok200)
    (fun _ => Observation.navFail) "k" rfl).2.2.1 PRODUCT_URLS [("k", true)]

/-- C7 as stated is false on the code: the page created before the loop is
reused for every product of a cycle (the first two products of the first
cycle use the same session, and the per-cycle session list is never
duplicate-free for the nine tracked products), and the session survives
across cycles (after one full cycle no teardown has happened). -/
theorem fresh_session_per_product_cex :
    (cycle_session_use initSession PRODUCT_URLS.length).1.getD 0 7 =
      (cycle_session_use initSession PRODUCT_URLS.length).1.getD 1 7 ∧
    ¬((cycle_session_use initSession PRODUCT_URLS.length).1).Nodup ∧
    (run_sessions 1 initSession).sessionId = initSession.sessionId := by
  decide

/-- C7 (amended): a single rendering session is shared by all products of a
cycle and across cycles; the browser/context/page are torn down and replaced
only after every `LOOP_RESTART`-th (200th) cycle, so after `k` cycles the
loop counter is `k` and the live session is the `k / 200`-th one. -/
theorem session_shared_recycled_every_200 :
    (∀ (st : SessionState) (n : Nat),
      (cycle_session_use st n).1 = List.replicate n st.sessionId) ∧
    (∀ k : Nat, run_sessions k initSession = ⟨k, k / LOOP_RESTART⟩) := by
  refine ⟨fun st n => rfl, fun k => ?_⟩
  simpa [initSession] using run_sessions_inv k 0

/-- C8: with a missing token or user identifier, `iphone_push` is a no-op
that only logs a warning (and cannot fail); and two runs that differ only in
the credentials produce identical dictionaries, identical notification
calls, and identical loop logs — only the outbound POST behaviour can
differ. -/
theorem creds_noninterference :
    (∀ (cfg : Config) (r : PushResult),
      (cfg.PUSHOVER_TOKEN = "" ∨ cfg.PUSHOVER_USER = "") →
      iphone_push cfg r = (false, [pushSkipLog])) ∧
    (∀ (cfg₁ cfg₂ : Config) (world : String → PushResult)
      (obs : String → Observation) (urls : List String) (d : Dict),
      (run_cycle cfg₁ world obs urls d).1 =
        (run_cycle cfg₂ world obs urls d).1 ∧
      (run_cycle cfg₁ world obs urls d).2.pushCalls =
        (run_cycle cfg₂ world obs urls d).2.pushCalls ∧
      (run_cycle cfg₁ world obs urls d).2.logs =
        (run_cycle cfg₂ world obs urls d).2.logs) ∧
    (∀ (cfg₁ cfg₂ : Config)
      (script : List ((String → PushResult) × (String → Observation)))
      (d : Dict), run_cycles cfg₁ script d = run_cycles cfg₂ script d) := by
  refine ⟨?_,
    fun cfg₁ cfg₂ world obs urls d =>
      run_cycle_cfg_indep cfg₁ cfg₂ world obs urls d,
    fun cfg₁ cfg₂ script d => run_cycles_cfg_indep cfg₁ cfg₂ script d⟩
  intro cfg r h
  rcases h with h | h <;> rcases r with _ | code | _ <;>
    simp [iphone_push, h]

theorem creds_noninterference_witness :
    iphone_push ⟨"", "someone"⟩ PushResult.ok200 = (false, [pushSkipLog]) :=
  creds_noninterference.1 ⟨"", "someone"⟩ PushResult.ok200 (Or.inl rfl)

/-- C9: on a false-to-true edge whose push fails (non-200 status or a
transport exception) with credentials configured, the failure is logged
inside `iphone_push`, exactly one POST attempt is made (no retry), and the
stored state is still set to `true` — the same dictionary as when the push
succeeds, so the product is not re-alerted later merely because the push
failed. -/
theorem push_failure_state_still_recorded (cfg : Config) (r : PushResult)
    (d : Dict) (u : String) (page : Page)
    (htok : ¬cfg.PUSHOVER_TOKEN = "") (husr : ¬cfg.PUSHOVER_USER = "")
    (hv : is_in_stock page = true) (hwas : dict_get d u = false)
    (hfail : r ≠ PushResult.ok200) :
    (product_step cfg r d u (Observation.ok page)).1 = dict_set d u true ∧
    dict_get (product_step cfg r d u (Observation.ok page)).1 u = true ∧
    (product_step cfg r d u (Observation.ok page)).1 =
      (product_step cfg PushResult.ok200 d u (Observation.ok page)).1 ∧
    (product_step cfg r d u (Observation.ok page)).2.postAttempts = 1 ∧
    (product_step cfg r d u (Observation.ok page)).2.pushLogs ≠ [] := by
  have hcond : (is_in_stock page && !(dict_get d u)) = true := by
    simp [hv, hwas]
  cases r with
  | ok200 => exact absurd rfl hfail
  | httpErr code =>
      refine ⟨?_, ?_, ?_, ?_, ?_⟩ <;>
        simp [product_step, hcond, iphone_push, htok, husr, hv, hwas,
          dict_get_set_self]
  | exn =>
      refine ⟨?_, ?_, ?_, ?_, ?_⟩ <;>
        simp [product_step, hcond, iphone_push, htok, husr, hv, hwas,
          dict_get_set_self]

theorem push_failure_state_still_recorded_witness :
    dict_get (product_step ⟨"t", "u"⟩ PushResult.exn [("k", false)] "k"
      (Observation.ok pageButtonOnly)).1 "k" = true :=
  (push_failure_state_still_recorded ⟨"t", "u"⟩ PushResult.exn [("k", false)]
    "k" pageButtonOnly (by decide) (by decide) (by decide) (by decide)
    (by decide)).2.1

/-- C10: on a page whose every query raises (content retrieval and all
button queries), the matcher helpers swallow the exceptions and report no
match, so the classifier returns the definitive verdict `false` instead of
propagating; the loop body then stores that `false`, overwriting a
previously-`true` state — unlike a navigation failure, which skips the
product and leaves the stored `true` unchanged. -/
theorem failing_queries_yield_false (page : Page)
    (hc : page.content = Except.error ())
    (hb : ∀ t, page.buttonQuery t = QueryResult.err)
    (cfg : Config) (r : PushResult) (d : Dict) (u : String)
    (hprev : dict_get d u = true) :
    (∀ texts : List String, page_has_any_text page texts = false) ∧
    find_enabled_buy_button page = false ∧
    is_in_stock page = false ∧
    dict_get (product_step cfg r d u (Observation.ok page)).1 u = false ∧
    dict_get (product_step cfg r d u Observation.navFail).1 u = true := by
  have h1 : ∀ texts : List String, page_has_any_text page texts = false := by
    intro texts
    simp [page_has_any_text, hc]
  have h2 : find_enabled_buy_button page = false := by
    simp [find_enabled_buy_button, hb]
  have h3 : is_in_stock page = false := by
    simp [is_in_stock, h2]
  refine ⟨h1, h2, h3, ?_, hprev⟩
  rw [product_step_dict]
  simp [h3, dict_get_set_self]

theorem failing_queries_yield_false_witness :
    is_in_stock pageAllErr = false ∧
    dict_get (product_step ⟨"", ""⟩ PushResult.ok200 [("k", true)] "k"
      (Observation.ok pageAllErr)).1 "k" = false :=
  ⟨(failing_queries_yield_false pageAllErr rfl (fun _ => rfl) ⟨"", ""⟩
      PushResult.ok200 [("k", true)] "k" (by decide)).2.2.1,
    (failing_queries_yield_false pageAllErr rfl (fun _ => rfl) ⟨"", ""⟩
      PushResult.ok200 [("k", true)] "k" (by decide)).2.2.2.1⟩

end PopmartWatcher
